import Mathlib

/-!
Shallow embedding of the rental-marketplace application's session/authorization
flow and checkout pricing pipeline, together with proofs of the specified
properties.  JavaScript numbers are modelled as `Int` (every monetary amount in
the code and the scenarios is integral), JSON-body fields that may be absent as
`Option String`, and thrown exceptions as `Except`.
-/

/-- JS string helper: lowercase every character (`String.toLowerCase`). -/
def strLower (s : String) : String := ⟨s.data.map Char.toLower⟩

/-- JS string helper: strip leading and trailing whitespace (`String.trim`). -/
def strTrim (s : String) : String :=
  ⟨((s.data.dropWhile Char.isWhitespace).reverse.dropWhile Char.isWhitespace).reverse⟩

/-- Prefix test on strings (`path.startsWith(p)` semantics of the route matcher). -/
def strStartsWith (s p : String) : Bool := p.data.isPrefixOf s.data

/-- JS truthiness of a string field destructured from a JSON body: falsy exactly
when the field is absent or the empty string (`!x` in the handlers). -/
def jsBlank : Option String → Bool
  | none => true
  | some s => s == ""

/-- JS `x || d` on a possibly-absent number: `d` when `x` is absent or `0`. -/
def jsNumOr (x : Option Int) (d : Int) : Int :=
  match x with
  | none => d
  | some v => if v == 0 then d else v

/-- JS `v || d` on a number that is always present. -/
def jsIntOr (v d : Int) : Int := if v == 0 then d else v

/-- JS `s || d` on a possibly-absent string: `d` when absent or empty
(`localStorage.getItem('cart') || '[]'`). -/
def jsStrOr (x : Option String) (d : String) : String :=
  match x with
  | none => d
  | some s => if s == "" then d else s

/-- The normalization registration applies before storing an email:
`email.toLowerCase().trim()`. -/
def normalizeEmail (e : String) : String := strTrim (strLower e)

/-- A persisted user document (the fields written by the registration route). -/
structure StoredUser where
  id : String
  name : String
  email : String
  passwordHash : String
  role : String
  phone : Option String := none
  address : Option String := none
  companyName : Option String := none
  businessType : Option String := none
deriving DecidableEq

/-- Modelled from the spec: the Mongoose `User` model (imported as `@/models/User`) is not
among the sources.  Per the spec's CredentialAuthenticator contract the user record is
looked up by lowercased/trimmed email, so the model's `findOne({email})` normalizes the
queried email before an exact match against the stored (already normalized) email. -/
def userFindOne (db : List StoredUser) (email : String) : Option StoredUser :=
  db.find? (fun u => u.email == normalizeEmail email)

/-- Modelled from the spec: persistence of a new `User` document.  The Mongoose model is
not among the sources; per the spec, email is unique, so saving a document whose email
collides with a stored one fails with a duplicate-key error (MongoDB code 11000) and
otherwise the document is appended. -/
def userSave (db : List StoredUser) (u : StoredUser) : Except Unit (List StoredUser) :=
  if db.any (fun v => v.email == u.email) then .error () else .ok (db ++ [u])

/-- The minimal identity projection returned by a successful `authorize`. -/
structure AuthUser where
  id : String
  email : String
  name : String
  role : String
deriving DecidableEq

/-- The `authorize` callback of the NextAuth credentials provider: rejects blank
credentials, looks the user up by email, verifies the password against the stored hash
(bcrypt's `comparePassword`, abstracted as `cmp`), and on success returns the minimal
identity projection `{id, email, name, role}`. -/
def authorize (db : List StoredUser) (cmp : String → String → Bool)
    (email password : String) : Option AuthUser :=
  if email == "" || password == "" then none
  else
    match userFindOne db email with
    | none => none
    | some user =>
      if cmp password user.passwordHash then
        some { id := user.id, email := user.email, name := user.name, role := user.role }
      else none

/-- Claims carried by the signed session token (JWT). -/
structure TokenClaims where
  id : Option String := none
  role : Option String := none
deriving DecidableEq

/-- The `jwt` callback of `authOptions.callbacks`: right after sign-in (when a user
object is present) its id and role are copied into the token. -/
def jwtCallback (token : TokenClaims) (user : Option AuthUser) : TokenClaims :=
  match user with
  | some u => { token with id := some u.id, role := some u.role }
  | none => token

/-- Outcome of the customer middleware: pass the request through, or redirect to
a pathname, optionally carrying a `callbackUrl` query parameter. -/
inductive MiddlewareResponse where
  | next : MiddlewareResponse
  | redirect (pathname : String) (callbackUrl : Option String) : MiddlewareResponse
deriving DecidableEq

/-- `customerAuthMiddleware`: if the session token is absent or its role claim is not
`'customer'`, redirect to `/login` with `callbackUrl` set to the original request URL;
otherwise let the request continue. -/
def customerAuthMiddleware (token : Option TokenClaims) (requestUrl : String) :
    MiddlewareResponse :=
  match token with
  | none => .redirect "/login" (some requestUrl)
  | some t =>
    if t.role ≠ some "customer" then .redirect "/login" (some requestUrl)
    else .next

/-- The middleware `config.matcher` path patterns: each entry `<p>/:path*` matches
`<p>` and everything below it. -/
def customerPathMatchers : List String := ["/shop", "/cart", "/checkout", "/orders"]

/-- Whether a pathname is customer-only according to the middleware matcher. -/
def isCustomerOnlyPath (path : String) : Bool :=
  customerPathMatchers.any (fun p => strStartsWith path p)

/-- The JSON body accepted by the registration endpoint. -/
structure RegisterBody where
  name : Option String := none
  email : Option String := none
  phone : Option String := none
  address : Option String := none
  password : Option String := none
  role : Option String := none
  companyName : Option String := none
  businessType : Option String := none
deriving DecidableEq

/-- The uniform API response shape: HTTP status plus `{success, error?}`. -/
structure ApiResult where
  status : Nat
  success : Bool
  error : Option String := none
deriving DecidableEq

/-- The `userData` document the registration route assembles once validation passed:
trimmed name, normalized email, hashed password, optional trimmed phone/address, and the
company fields for end users. -/
def registerNewUser (hash : String → String) (newId : String) (body : RegisterBody) :
    StoredUser :=
  let role := body.role.getD ""
  { id := newId
    name := strTrim (body.name.getD "")
    email := normalizeEmail (body.email.getD "")
    passwordHash := hash (body.password.getD "")
    role := role
    phone := if jsBlank body.phone then none else some (strTrim (body.phone.getD ""))
    address := if jsBlank body.address then none else some (strTrim (body.address.getD ""))
    companyName :=
      if role == "enduser" then some (strTrim (body.companyName.getD "")) else none
    businessType := if role == "enduser" then body.businessType else none }

/-- POST `/api/auth/register`: validates the body, rejects duplicate emails, and
persists a new user.  `hash` abstracts the bcrypt pre-save hook of the User model and
`newId` the generated document id.  Returns the HTTP response together with the
resulting database state. -/
def registerPOST (hash : String → String) (newId : String)
    (body : RegisterBody) (db : List StoredUser) : ApiResult × List StoredUser :=
  if jsBlank body.name || jsBlank body.email || jsBlank body.password || jsBlank body.role then
    ({ status := 400, success := false,
       error := some "Missing required fields: name, email, password, and role are required" },
     db)
  else
    let role := body.role.getD ""
    if !(role == "customer" || role == "enduser") then
      ({ status := 400, success := false,
         error := some "Invalid role. Must be either customer or enduser" }, db)
    else if role == "enduser" && (jsBlank body.companyName || jsBlank body.businessType) then
      ({ status := 400, success := false,
         error := some "Company name and business type are required for end users" }, db)
    else
      match userFindOne db (body.email.getD "") with
      | some _ =>
        ({ status := 409, success := false,
           error := some "A user with this email already exists" }, db)
      | none =>
        match userSave db (registerNewUser hash newId body) with
        | .ok db2 => ({ status := 201, success := true }, db2)
        | .error _ =>
          ({ status := 409, success := false,
             error := some "A user with this email already exists" }, db)

/-- A product as rendered by the shop page (the fields `addToCart` reads). -/
structure ShopProduct where
  id : String
  name : String
  image : String
  pricePerDay : Option Int := none
  pricePerHour : Option Int := none
deriving DecidableEq

/-- A device-local cart line item. -/
structure CartItem where
  productId : String
  name : String
  image : String
  pricePerDay : Int
  quantity : Nat
  duration : String
  totalPrice : Int
  fromDate : String
  toDate : String
deriving DecidableEq

/-- The default rental date range computed from the wall clock
(`new Date()` today / tomorrow), abstracted as data. -/
structure RentalDates where
  fromDate : String
  toDate : String
deriving DecidableEq

/-- Fresh line item pushed by `addToCart` when the product is not yet carted:
daily rental, quantity 1, price snapshot `product.pricePerDay || product.pricePerHour || 0`. -/
def newCartItem (dates : RentalDates) (p : ShopProduct) : CartItem :=
  let price := jsNumOr p.pricePerDay (jsNumOr p.pricePerHour 0)
  { productId := p.id, name := p.name, image := p.image, pricePerDay := price,
    quantity := 1, duration := "day", totalPrice := price,
    fromDate := dates.fromDate, toDate := dates.toDate }

/-- In-place mutation applied to the line item found for an already-carted product:
`quantity += 1; totalPrice = (pricePerDay || 0) * quantity`. -/
def bumpCartItem (item : CartItem) : CartItem :=
  { item with
    quantity := item.quantity + 1,
    totalPrice := jsIntOr item.pricePerDay 0 * ((item.quantity : Int) + 1) }

/-- `cart.find(item => item.productId === id)` followed by mutation of the found
item: only the first item with the given productId is updated. -/
def updateFirstItem : List CartItem → String → List CartItem
  | [], _ => []
  | item :: rest, pid =>
    if item.productId == pid then bumpCartItem item :: rest
    else item :: updateFirstItem rest pid

/-- Pure core of the shop page's `addToCart`: bump the existing line item for the
product, or append a fresh one. -/
def addToCartList (dates : RentalDates) (cart : List CartItem) (p : ShopProduct) :
    List CartItem :=
  if cart.any (fun item => item.productId == p.id) then updateFirstItem cart p.id
  else cart ++ [newCartItem dates p]

/-- Observable outcome of the whole `addToCart` handler: the new cart list written
back to storage, or the caught-error path (error toast, no write). -/
inductive AddOutcome where
  | success (newCart : List CartItem) : AddOutcome
  | failure : AddOutcome
deriving DecidableEq

/-- Body of the `try` block of `addToCart`: read the stored cart blob
(`localStorage.getItem('cart') || '[]'`), JSON-parse it (abstracted as `parse`, which
throws — returns `.error` — on malformed input), then rewrite the cart. -/
def addToCartTry (parse : String → Except Unit (List CartItem)) (dates : RentalDates)
    (blob : Option String) (p : ShopProduct) : Except Unit (List CartItem) := do
  let cart ← parse (jsStrOr blob "[]")
  pure (addToCartList dates cart p)

/-- The whole `addToCart` handler: the surrounding `try`/`catch` converts any thrown
parse error into the failure outcome, so no exception reaches the caller. -/
def addToCartOp (parse : String → Except Unit (List CartItem)) (dates : RentalDates)
    (blob : Option String) (p : ShopProduct) : AddOutcome :=
  match addToCartTry parse dates blob p with
  | .ok newCart => .success newCart
  | .error _ => .failure

/-- The pricing block of the `checkoutData` blob consumed by the delivery page. -/
structure PricingInfo where
  subtotal : Int
  discount : Int
  deliveryCharge : Int
  tax : Int
  total : Int
deriving DecidableEq

/-- The `checkoutData` blob read from local storage by the delivery page. -/
structure CheckoutData where
  items : List CartItem
  pricing : PricingInfo
  couponCode : String
deriving DecidableEq

/-- A delivery or billing address form. -/
structure AddressForm where
  name : String
  phone : String
  address : String
  city : String
  state : String
  pincode : String
  landmark : String := ""
deriving DecidableEq

/-- A delivery-method entry of the delivery page's static table. -/
structure DeliveryMethodEntry where
  id : String
  name : String
  time : String
  price : Int
deriving DecidableEq

/-- The static delivery-method table of the delivery page. -/
def deliveryMethods : List DeliveryMethodEntry :=
  [ { id := "standard", name := "Standard Delivery", time := "3-5 days", price := 0 },
    { id := "express", name := "Express Delivery", time := "1-2 days", price := 50 },
    { id := "same-day", name := "Same Day Delivery", time := "Same day", price := 100 } ]

/-- The six mandatory (trim-nonempty) fields of an address form; landmark is optional. -/
def requiredFieldsFilled (a : AddressForm) : Bool :=
  strTrim a.name != "" && strTrim a.phone != "" && strTrim a.address != "" &&
  strTrim a.city != "" && strTrim a.state != "" && strTrim a.pincode != ""

/-- `validateForm` of the delivery page: delivery address complete, billing address
complete unless it mirrors the delivery address, and a delivery method selected. -/
def validateForm (delivery billing : AddressForm) (sameAsDelivery : Bool)
    (selectedDeliveryMethod : String) : Bool :=
  requiredFieldsFilled delivery &&
  (sameAsDelivery || requiredFieldsFilled billing) &&
  selectedDeliveryMethod != ""

/-- The `orderData` payload written for the payment page. -/
structure OrderData where
  items : List CartItem
  pricing : PricingInfo
  couponCode : String
  deliveryAddress : AddressForm
  billingAddress : AddressForm
  deliveryMethod : Option DeliveryMethodEntry
deriving DecidableEq

/-- `proceedToPayment` of the delivery page: on successful validation, update the
pricing with the selected method's charge (`selectedMethod?.price || 0`), recompute
`total = subtotal - discount + charge + tax`, and store the order payload; on failed
validation no payload is produced. -/
def proceedToPayment (checkout : CheckoutData) (delivery billing : AddressForm)
    (sameAsDelivery : Bool) (selectedDeliveryMethod : String) : Option OrderData :=
  if validateForm delivery billing sameAsDelivery selectedDeliveryMethod then
    let selectedMethod := deliveryMethods.find? (fun m => m.id == selectedDeliveryMethod)
    let charge := jsNumOr (selectedMethod.map (fun m => m.price)) 0
    let updatedPricing : PricingInfo :=
      { checkout.pricing with
        deliveryCharge := charge,
        total := checkout.pricing.subtotal - checkout.pricing.discount + charge +
          checkout.pricing.tax }
    some { items := checkout.items, pricing := updatedPricing,
           couponCode := checkout.couponCode,
           deliveryAddress := delivery,
           billingAddress := if sameAsDelivery then delivery else billing,
           deliveryMethod := selectedMethod }
  else none

/-- Modelled from the spec: the cart/checkout page that assembles `checkoutData` is not
among the sources.  Per the PricingCalculator contract, subtotal = Σ(unitPrice ×
quantity), the discount comes from the coupon (zero when absent), the delivery charge is
still zero at this stage, tax is a fixed percentage of the subtotal, and total =
subtotal − discount + deliveryCharge + tax.  The scenario's 5% of an integral subtotal
is exact under integer division. -/
def computeCheckoutPricing (items : List CartItem) (discount taxPercent : Int) :
    PricingInfo :=
  let subtotal := (items.map (fun i => i.pricePerDay * (i.quantity : Int))).sum
  let tax := subtotal * taxPercent / 100
  { subtotal := subtotal, discount := discount, deliveryCharge := 0, tax := tax,
    total := subtotal - discount + 0 + tax }

/-! Sample data shared across scenarios and witnesses. -/

def sampleAddress : AddressForm :=
  { name := "Asha Rao", phone := "9000000000", address := "1 MG Road", city := "Pune",
    state := "MH", pincode := "411001", landmark := "" }

def sampleCartItem : CartItem :=
  { productId := "p1", name := "Projector", image := "", pricePerDay := 500,
    quantity := 2, duration := "day", totalPrice := 1000,
    fromDate := "2026-10-11", toDate := "2026-10-12" }

def samplePricing : PricingInfo := computeCheckoutPricing [sampleCartItem] 0 5

def sampleCheckout : CheckoutData :=
  { items := [sampleCartItem], pricing := samplePricing, couponCode := "" }

theorem jsNumOr_some_zero (v : Int) : jsNumOr (some v) 0 = v := by
  unfold jsNumOr
  split <;> simp_all

/-- C1: every order payload produced by `proceedToPayment` stores a total price equal to
subtotal − discount + the selected delivery method's charge + tax; the stored
deliveryCharge is that same charge. -/
theorem c1_order_total_invariant (checkout : CheckoutData)
    (delivery billing : AddressForm) (same : Bool) (sel : String)
    (od : OrderData) (m : DeliveryMethodEntry)
    (hm : deliveryMethods.find? (fun x => x.id == sel) = some m)
    (h : proceedToPayment checkout delivery billing same sel = some od) :
    od.pricing.total =
      od.pricing.subtotal - od.pricing.discount + m.price + od.pricing.tax ∧
    od.pricing.deliveryCharge = m.price := by
  unfold proceedToPayment at h
  split at h
  · simp only [Option.some.injEq] at h
    subst h
    simp [hm, jsNumOr_some_zero]
  · exact absurd h (by simp)

def c1Order : OrderData :=
  (proceedToPayment sampleCheckout sampleAddress sampleAddress true "express").getD
    { items := [],
      pricing := { subtotal := 0, discount := 0, deliveryCharge := 0, tax := 0, total := 0 },
      couponCode := "", deliveryAddress := sampleAddress, billingAddress := sampleAddress,
      deliveryMethod := none }

/-- Witness for C1 at a concrete checkout with the express method. -/
theorem c1_order_total_invariant_witness :
    c1Order.pricing.total =
      c1Order.pricing.subtotal - c1Order.pricing.discount + 50 + c1Order.pricing.tax ∧
    c1Order.pricing.deliveryCharge = 50 :=
  c1_order_total_invariant sampleCheckout sampleAddress sampleAddress true "express"
    c1Order { id := "express", name := "Express Delivery", time := "1-2 days", price := 50 }
    (by decide) (by decide)

/-- C2: on a customer-only path, an absent token or a non-customer role claim makes the
middleware redirect to `/login` with `callbackUrl` preserving the original request URL,
and a customer role claim lets the request through. -/
theorem c2_customer_route_guard (t : TokenClaims) (url path : String)
    (hpath : isCustomerOnlyPath path = true) :
    customerAuthMiddleware none url = .redirect "/login" (some url) ∧
    (t.role ≠ some "customer" →
      customerAuthMiddleware (some t) url = .redirect "/login" (some url)) ∧
    (t.role = some "customer" → customerAuthMiddleware (some t) url = .next) := by
  refine ⟨rfl, ?_, ?_⟩ <;> intro hrole <;> simp [customerAuthMiddleware, hrole]

/-- Witness for C2 with an end-user token on the `/cart` path. -/
theorem c2_customer_route_guard_witness :
    customerAuthMiddleware none "/cart" = .redirect "/login" (some "/cart") ∧
    ((⟨some "1", some "enduser"⟩ : TokenClaims).role ≠ some "customer" →
      customerAuthMiddleware (some ⟨some "1", some "enduser"⟩) "/cart" =
        .redirect "/login" (some "/cart")) ∧
    ((⟨some "1", some "enduser"⟩ : TokenClaims).role = some "customer" →
      customerAuthMiddleware (some ⟨some "1", some "enduser"⟩) "/cart" = .next) :=
  c2_customer_route_guard ⟨some "1", some "enduser"⟩ "/cart" "/cart" (by decide)

/-- C7: the scenario with line items [{price 500, qty 2}], no discount, standard delivery
(fee 0) and 5% tax yields subtotal 1000 and total 1050 in the checkout pricing. -/
theorem c7_standard_scenario :
    (proceedToPayment sampleCheckout sampleAddress sampleAddress true "standard").map
      (fun od => (od.pricing.subtotal, od.pricing.total)) = some (1000, 1050) := by
  decide
def sampleUser : StoredUser :=
  { id := "u1", name := "Alice", email := "alice@example.com",
    passwordHash := "secret", role := "customer" }

def sampleDb : List StoredUser := [sampleUser]

def sampleCompare : String → String → Bool := fun p h => p == h

/-- C3: the credential lookup keys on the lowercased/trimmed email, so `authorize` treats
any two non-blank spellings of an email that normalize identically the same way. -/
theorem c3_email_normalized_lookup (db : List StoredUser) (cmp : String → String → Bool)
    (e1 e2 pw : String) (h1 : e1 ≠ "") (h2 : e2 ≠ "")
    (h : normalizeEmail e1 = normalizeEmail e2) :
    authorize db cmp e1 pw = authorize db cmp e2 pw := by
  by_cases hpw : pw = ""
  · simp [authorize, hpw, h1, h2]
  · simp [authorize, userFindOne, hpw, h1, h2, h]

/-- Witness for C3: a spelling with capitals and surrounding whitespace authenticates
exactly like the normalized spelling. -/
theorem c3_email_normalized_lookup_witness :
    authorize sampleDb sampleCompare " Alice@Example.Com " "secret" =
      authorize sampleDb sampleCompare "alice@example.com" "secret" :=
  c3_email_normalized_lookup sampleDb sampleCompare " Alice@Example.Com "
    "alice@example.com" "secret" (by decide) (by decide) (by decide)

/-- C4: for a stored user matched by the lookup whose password verifies, `authorize`
succeeds with the stored identity projection, and the JWT produced by the `jwt` callback
carries a role claim equal to the stored role. -/
theorem c4_session_role_equals_stored_role (db : List StoredUser)
    (cmp : String → String → Bool) (email pw : String) (u : StoredUser)
    (tok : TokenClaims) (he : email ≠ "") (hp : pw ≠ "")
    (hu : userFindOne db email = some u) (hcmp : cmp pw u.passwordHash = true) :
    authorize db cmp email pw = some { id := u.id, email := u.email, name := u.name, role := u.role } ∧
    (jwtCallback tok (authorize db cmp email pw)).role = some u.role := by
  have hauth : authorize db cmp email pw =
      some { id := u.id, email := u.email, name := u.name, role := u.role } := by
    simp [authorize, he, hp, hu, hcmp]
  exact ⟨hauth, by simp [hauth, jwtCallback]⟩

/-- Witness for C4: Alice's stored record yields a session token whose role claim is her
stored role. -/
theorem c4_session_role_equals_stored_role_witness :
    authorize sampleDb sampleCompare "alice@example.com" "secret" =
      some { id := "u1", email := "alice@example.com", name := "Alice", role := "customer" } ∧
    (jwtCallback { id := none, role := none }
      (authorize sampleDb sampleCompare "alice@example.com" "secret")).role = some "customer" :=
  c4_session_role_equals_stored_role sampleDb sampleCompare "alice@example.com" "secret"
    sampleUser { id := none, role := none } (by decide) (by decide) (by decide) (by decide)
theorem find?_append_of_none {α : Type} {p : α → Bool} {l1 l2 : List α}
    (h : l1.find? p = none) : (l1 ++ l2).find? p = l2.find? p := by
  induction l1 with
  | nil => simp
  | cons a t ih =>
    by_cases hpa : p a = true
    · rw [List.find?_cons_of_pos _ hpa] at h
      cases h
    · rw [List.find?_cons_of_neg _ (by simpa using hpa)] at h
      rw [List.cons_append, List.find?_cons_of_neg _ (by simpa using hpa)]
      exact ih h

/-- C5: a registration body missing or blank in any of name, email, password, role is
answered with status 400 and writes nothing. -/
theorem c5_missing_fields_400 (hash : String → String) (newId : String)
    (body : RegisterBody) (db : List StoredUser)
    (h : jsBlank body.name = true ∨ jsBlank body.email = true ∨
      jsBlank body.password = true ∨ jsBlank body.role = true) :
    (registerPOST hash newId body db).1.status = 400 ∧
    (registerPOST hash newId body db).2 = db := by
  have hcond : (jsBlank body.name || jsBlank body.email || jsBlank body.password ||
      jsBlank body.role) = true := by
    rcases h with h | h | h | h <;> simp [h]
  unfold registerPOST
  simp [hcond]

def idHash : String → String := fun s => s

/-- Witness for C5: a body with a blank password is rejected with 400 and the database
is untouched. -/
theorem c5_missing_fields_400_witness :
    (registerPOST idHash "u9"
      { name := some "Bob", email := some "bob@example.com", password := some "",
        role := some "customer" } sampleDb).1.status = 400 ∧
    (registerPOST idHash "u9"
      { name := some "Bob", email := some "bob@example.com", password := some "",
        role := some "customer" } sampleDb).2 = sampleDb :=
  c5_missing_fields_400 idHash "u9"
    { name := some "Bob", email := some "bob@example.com", password := some "",
      role := some "customer" } sampleDb (by decide)

/-- C10: a registration body with role enduser but a missing or blank companyName or
businessType is answered with status 400 and writes nothing. -/
theorem c10_enduser_fields_400 (hash : String → String) (newId : String)
    (body : RegisterBody) (db : List StoredUser)
    (hrole : body.role = some "enduser")
    (h : jsBlank body.companyName = true ∨ jsBlank body.businessType = true) :
    (registerPOST hash newId body db).1.status = 400 ∧
    (registerPOST hash newId body db).2 = db := by
  have hcc : (jsBlank body.companyName || jsBlank body.businessType) = true := by
    rcases h with h | h <;> simp [h]
  unfold registerPOST
  by_cases hfirst : (jsBlank body.name || jsBlank body.email || jsBlank body.password ||
      jsBlank body.role) = true
  · simp [hfirst]
  · simp [hfirst, hrole, hcc]
    split <;> simp

/-- Witness for C10: an enduser registration without a company name is rejected with 400
and the database is untouched. -/
theorem c10_enduser_fields_400_witness :
    (registerPOST idHash "u9"
      { name := some "Bob", email := some "bob@example.com", password := some "pw",
        role := some "enduser", businessType := some "retail" } sampleDb).1.status = 400 ∧
    (registerPOST idHash "u9"
      { name := some "Bob", email := some "bob@example.com", password := some "pw",
        role := some "enduser", businessType := some "retail" } sampleDb).2 = sampleDb :=
  c10_enduser_fields_400 idHash "u9"
    { name := some "Bob", email := some "bob@example.com", password := some "pw",
      role := some "enduser", businessType := some "retail" } sampleDb rfl (by decide)
/-- C6: a valid registration body whose email is not yet taken succeeds with 201 and
adds one user; submitting the identical body again yields 409 and leaves the database
unchanged. -/
theorem c6_duplicate_email_conflict (hash : String → String) (newId1 newId2 : String)
    (body : RegisterBody) (db : List StoredUser)
    (hname : jsBlank body.name = false) (hemail : jsBlank body.email = false)
    (hpass : jsBlank body.password = false)
    (hrole : body.role.getD "" = "customer" ∨ body.role.getD "" = "enduser")
    (hend : body.role.getD "" = "enduser" →
      jsBlank body.companyName = false ∧ jsBlank body.businessType = false)
    (hnew : userFindOne db (body.email.getD "") = none) :
    (registerPOST hash newId1 body db).1.status = 201 ∧
    (registerPOST hash newId1 body db).2.length = db.length + 1 ∧
    (registerPOST hash newId2 body (registerPOST hash newId1 body db).2).1.status = 409 ∧
    (registerPOST hash newId2 body (registerPOST hash newId1 body db).2).2 =
      (registerPOST hash newId1 body db).2 := by
  have hroleblank : jsBlank body.role = false := by
    cases hb : body.role with
    | none => rw [hb] at hrole; simp [jsBlank] at hrole
    | some s =>
      rw [hb] at hrole
      simp only [Option.getD_some] at hrole
      have hs : s ≠ "" := by rcases hrole with h | h <;> simp [h]
      simp [jsBlank, hs]
  have hc1 : (jsBlank body.name || jsBlank body.email || jsBlank body.password ||
      jsBlank body.role) = false := by
    simp [hname, hemail, hpass, hroleblank]
  have hrolecheck : (!(body.role.getD "" == "customer" || body.role.getD "" == "enduser"))
      = false := by
    rcases hrole with h | h <;> simp [h]
  have hcc : (body.role.getD "" == "enduser" &&
      (jsBlank body.companyName || jsBlank body.businessType)) = false := by
    by_cases hr : body.role.getD "" = "enduser"
    · obtain ⟨a, b⟩ := hend hr
      simp [hr, a, b]
    · simp [hr]
  have hsave : (db.any
      (fun v => v.email == (registerNewUser hash newId1 body).email)) = false := by
    rw [List.any_eq_false]
    intro v hv
    have hfind := List.find?_eq_none.mp hnew v hv
    simpa [registerNewUser] using hfind
  have h1 : registerPOST hash newId1 body db =
      ({ status := 201, success := true },
        db ++ [registerNewUser hash newId1 body]) := by
    unfold registerPOST
    simp [hc1, hrolecheck, hcc, hnew, userSave, hsave]
  have hfind2 : userFindOne (db ++ [registerNewUser hash newId1 body])
      (body.email.getD "") = some (registerNewUser hash newId1 body) := by
    unfold userFindOne at hnew ⊢
    rw [find?_append_of_none hnew]
    simp [registerNewUser]
  refine ⟨by rw [h1], by rw [h1]; simp, ?_, ?_⟩
  · rw [h1]
    unfold registerPOST
    simp [hc1, hrolecheck, hcc, hfind2]
  · rw [h1]
    unfold registerPOST
    simp [hc1, hrolecheck, hcc, hfind2]

/-- Witness for C6: registering Bob into the sample database succeeds, the identical
second submission is answered 409 with no further write. -/
theorem c6_duplicate_email_conflict_witness :
    (registerPOST idHash "u2"
      { name := some "Bob", email := some "bob@example.com", password := some "pw",
        role := some "customer" } sampleDb).1.status = 201 ∧
    (registerPOST idHash "u2"
      { name := some "Bob", email := some "bob@example.com", password := some "pw",
        role := some "customer" } sampleDb).2.length = sampleDb.length + 1 ∧
    (registerPOST idHash "u3"
      { name := some "Bob", email := some "bob@example.com", password := some "pw",
        role := some "customer" }
      (registerPOST idHash "u2"
        { name := some "Bob", email := some "bob@example.com", password := some "pw",
          role := some "customer" } sampleDb).2).1.status = 409 ∧
    (registerPOST idHash "u3"
      { name := some "Bob", email := some "bob@example.com", password := some "pw",
        role := some "customer" }
      (registerPOST idHash "u2"
        { name := some "Bob", email := some "bob@example.com", password := some "pw",
          role := some "customer" } sampleDb).2).2 =
      (registerPOST idHash "u2"
        { name := some "Bob", email := some "bob@example.com", password := some "pw",
          role := some "customer" } sampleDb).2 :=
  c6_duplicate_email_conflict idHash "u2" "u3"
    { name := some "Bob", email := some "bob@example.com", password := some "pw",
      role := some "customer" } sampleDb (by decide) (by decide) (by decide)
    (Or.inl (by decide)) (by intro h; exact absurd h (by decide)) (by decide)
theorem jsIntOr_zero (v : Int) : jsIntOr v 0 = v := by
  unfold jsIntOr
  split <;> simp_all

theorem updateFirstItem_map_productId (cart : List CartItem) (pid : String) :
    (updateFirstItem cart pid).map (fun x => x.productId) =
      cart.map (fun x => x.productId) := by
  induction cart with
  | nil => rfl
  | cons a t ih =>
    unfold updateFirstItem
    split
    · simp [bumpCartItem]
    · simp [ih]

theorem addToCartList_pids_nodup (dates : RentalDates) (cart : List CartItem)
    (p : ShopProduct) (h : (cart.map (fun x => x.productId)).Nodup) :
    ((addToCartList dates cart p).map (fun x => x.productId)).Nodup := by
  unfold addToCartList
  split
  · rw [updateFirstItem_map_productId]
    exact h
  · rename_i hany
    have hnotmem : p.id ∉ cart.map (fun x => x.productId) := by
      intro hmem
      obtain ⟨x, hx, hxe⟩ := List.mem_map.mp hmem
      exact hany (List.any_eq_true.mpr ⟨x, hx, by simp [hxe]⟩)
    simp only [List.map_append, List.map_cons, List.map_nil, newCartItem]
    exact List.Nodup.append h (List.nodup_singleton _)
      (by simpa [List.disjoint_singleton] using hnotmem)

theorem bump_mem_updateFirstItem (cart : List CartItem) (pid : String) (i : CartItem)
    (hnd : (cart.map (fun x => x.productId)).Nodup) (hi : i ∈ cart)
    (hpid : i.productId = pid) :
    bumpCartItem i ∈ updateFirstItem cart pid ∧
    (updateFirstItem cart pid).length = cart.length := by
  induction cart with
  | nil => cases hi
  | cons a t ih =>
    simp only [List.map_cons, List.nodup_cons] at hnd
    obtain ⟨ha, ht⟩ := hnd
    unfold updateFirstItem
    split
    · rename_i heq
      have hia : i = a := by
        rcases List.mem_cons.mp hi with h | h
        · exact h
        · exfalso
          apply ha
          have haeq : a.productId = pid := by simpa using heq
          exact List.mem_map.mpr ⟨i, h, by rw [hpid, haeq]⟩
      subst hia
      exact ⟨List.mem_cons_self _ _, by simp⟩
    · rename_i hne
      have hit : i ∈ t := by
        rcases List.mem_cons.mp hi with h | h
        · exfalso
          subst h
          exact hne (by simp [hpid])
        · exact h
      obtain ⟨hm, hl⟩ := ih ht hit
      exact ⟨List.mem_cons_of_mem _ hm, by simp [hl]⟩

/-- C9: starting from the empty cart, any sequence of add-to-cart operations keeps at
most one line item per productId, and adding an already-carted product updates the
existing item in place — its quantity grows by one, its totalPrice becomes pricePerDay
times the new quantity — with no duplicate entry appended. -/
theorem c9_cart_no_duplicate_items (ops : List (RentalDates × ShopProduct))
    (dates : RentalDates) (cart : List CartItem) (p : ShopProduct) (i : CartItem)
    (hnd : (cart.map (fun x => x.productId)).Nodup) (hi : i ∈ cart)
    (hpid : i.productId = p.id) :
    ((ops.foldl (fun c op => addToCartList op.1 c op.2) []).map
      (fun x => x.productId)).Nodup ∧
    addToCartList dates cart p = updateFirstItem cart p.id ∧
    (addToCartList dates cart p).length = cart.length ∧
    bumpCartItem i ∈ addToCartList dates cart p ∧
    (bumpCartItem i).quantity = i.quantity + 1 ∧
    (bumpCartItem i).totalPrice = i.pricePerDay * ((i.quantity : Int) + 1) := by
  have hany : (cart.any (fun item => item.productId == p.id)) = true :=
    List.any_eq_true.mpr ⟨i, hi, by simp [hpid]⟩
  have hupd : addToCartList dates cart p = updateFirstItem cart p.id := by
    unfold addToCartList
    simp [hany]
  have hfold : ∀ (l : List (RentalDates × ShopProduct)) (c : List CartItem),
      (c.map (fun x => x.productId)).Nodup →
      ((l.foldl (fun c op => addToCartList op.1 c op.2) c).map
        (fun x => x.productId)).Nodup := by
    intro l
    induction l with
    | nil => intro c hc; simpa using hc
    | cons a t ih =>
      intro c hc
      exact ih _ (addToCartList_pids_nodup a.1 c a.2 hc)
  obtain ⟨hm, hl⟩ := bump_mem_updateFirstItem cart p.id i hnd hi hpid
  refine ⟨hfold ops [] (by simp), hupd, by rw [hupd, hl], by rw [hupd]; exact hm, rfl, ?_⟩
  simp [bumpCartItem, jsIntOr_zero]

def sampleProduct : ShopProduct :=
  { id := "p1", name := "Projector", image := "", pricePerDay := some 500,
    pricePerHour := none }

def sampleDates : RentalDates := { fromDate := "2026-10-11", toDate := "2026-10-12" }

/-- Witness for C9: one concrete add of an already-carted product bumps the line item. -/
theorem c9_cart_no_duplicate_items_witness :
    ((([(sampleDates, sampleProduct)]).foldl
      (fun c op => addToCartList op.1 c op.2) []).map (fun x => x.productId)).Nodup ∧
    addToCartList sampleDates [sampleCartItem] sampleProduct =
      updateFirstItem [sampleCartItem] sampleProduct.id ∧
    (addToCartList sampleDates [sampleCartItem] sampleProduct).length =
      [sampleCartItem].length ∧
    bumpCartItem sampleCartItem ∈ addToCartList sampleDates [sampleCartItem] sampleProduct ∧
    (bumpCartItem sampleCartItem).quantity = sampleCartItem.quantity + 1 ∧
    (bumpCartItem sampleCartItem).totalPrice =
      sampleCartItem.pricePerDay * ((sampleCartItem.quantity : Int) + 1) :=
  c9_cart_no_duplicate_items [(sampleDates, sampleProduct)] sampleDates
    [sampleCartItem] sampleProduct sampleCartItem (by decide) (by decide) (by decide)
def parseStub : String → Except Unit (List CartItem) :=
  fun s => if s == "[]" then .ok [] else .error ()

/-- C8 counterexample: with the malformed stored blob "oops" the add-to-cart operation
takes the catch branch and aborts; it does not behave as if the cart had been read as
the empty list, which would have produced a successful one-item cart write. -/
theorem c8_counterexample_malformed_blob_aborts :
    addToCartOp parseStub sampleDates (some "oops") sampleProduct = AddOutcome.failure ∧
    addToCartOp parseStub sampleDates (some "oops") sampleProduct ≠
      AddOutcome.success (addToCartList sampleDates [] sampleProduct) := by
  decide

/-- C8 (amended): a malformed non-empty stored cart blob makes the add-to-cart
operation abort through its catch branch — the parse error is swallowed, so nothing
propagates to the caller and no cart is written — while the empty-list default applies
only when no blob is stored. -/
theorem c8_malformed_blob_fails_closed (parse : String → Except Unit (List CartItem))
    (dates : RentalDates) (blob : String) (p : ShopProduct)
    (hblob : blob ≠ "")
    (hbad : parse blob = Except.error ())
    (hempty : parse "[]" = Except.ok []) :
    addToCartOp parse dates (some blob) p = AddOutcome.failure ∧
    addToCartOp parse dates none p =
      AddOutcome.success (addToCartList dates [] p) := by
  constructor
  · simp [addToCartOp, addToCartTry, jsStrOr, hblob, hbad]
  · simp [addToCartOp, addToCartTry, jsStrOr, hempty]

/-- Witness for the amended C8 at the concrete blob "oops". -/
theorem c8_malformed_blob_fails_closed_witness :
    addToCartOp parseStub sampleDates (some "oops") sampleProduct = AddOutcome.failure ∧
    addToCartOp parseStub sampleDates none sampleProduct =
      AddOutcome.success (addToCartList sampleDates [] sampleProduct) :=
  c8_malformed_blob_fails_closed parseStub sampleDates "oops" sampleProduct
    (by decide) (by rfl) (by rfl)
